import Mathlib

/-
  Verification of the Document Segmentation Pipeline (src/js/doc-split.js).

  The JavaScript source is shallowly embedded below.  External collaborators
  (the Azure OCR service, the OpenAI classifier, the filesystem, pdf-lib)
  are modelled as explicit inputs: each network interaction is an `outcome`
  value enumerating the observable behaviours of the collaborator, the
  filesystem is an explicit list of paths threaded through the pipeline, and
  a PDF document is represented by its page count / page index lists.
-/

namespace DocSplit

/--
JSON values as produced by a successful `JSON.parse`.  Numeric literals are
modelled as integers: every page number and timestamp handled by the
pipeline is integral, and non-integral numerics are outside the model.
Objects are association lists with distinct keys (as `JSON.parse` yields).
-/
inductive Json where
  | null : Json
  | bool (b : Bool) : Json
  | num (n : Int) : Json
  | str (s : String) : Json
  | arr (elems : List Json) : Json
  | obj (fields : List (String × Json)) : Json
deriving Repr

/-- JavaScript property access `j[key]` on a parsed JSON value: a lookup on
an object, `undefined` (modelled as `none`) on everything else. -/
def getField (j : Json) (key : String) : Option Json :=
  match j with
  | .obj fields => (fields.find? (fun f => f.1 == key)).map (fun f => f.2)
  | _ => none

/--
JavaScript `for (const x of v)` iterability for parsed JSON values: arrays
iterate their elements, strings iterate their characters (each a one-character
string); every other value (including `undefined`, modelled by iterating a
`none` field) throws a TypeError, modelled as `none`.
-/
def jsIterate (j : Json) : Option (List Json) :=
  match j with
  | .arr elems => some elems
  | .str s => some (s.data.map (fun c => Json.str (String.mk [c])))
  | _ => none

/-- JavaScript `Number(s)` restricted to the strings the pipeline can meet:
a blank string is 0, an optionally signed decimal integer is its value, and
anything else is NaN (`none`).  Hexadecimal and fractional forms are outside
the model; no claim exercises them. -/
def jsStringToNumber (s : String) : Option Int :=
  let t := s.trim
  if t = "" then some 0 else t.toInt?

/-- JavaScript numeric coercion of a parsed JSON value, as applied by
`pageNum - 1`.  Arrays and objects coerce through ToPrimitive, which no
claim exercises; they are modelled as NaN (`none`). -/
def jsToNumber (j : Json) : Option Int :=
  match j with
  | .num n => some n
  | .bool b => some (if b then 1 else 0)
  | .null => some 0
  | .str s => jsStringToNumber s
  | .arr _ => none
  | .obj _ => none

/-! ## OCR adapter: `performOCROnFile` and `pollResult` (doc-split.js:19-66) -/

/-- One reply body of the asynchronous analysis job, as observed by a single
`axios.get` in the polling loop: its `status` string and the optional
`analyzeResult.content` payload. -/
structure PollResponse where
  status : String
  content : Option String
deriving DecidableEq, Repr

/-- The only error `pollResult` can raise: `new Error("Analysis failed")`.
The source has no timeout branch, so no timeout error exists. -/
inductive OcrError where
  | analysisFailed : OcrError
deriving DecidableEq, Repr

/--
`pollResult` (doc-split.js:52-66): `while (true)` polling the operation
location.  The argument lists the successive reply bodies the collaborator
serves; the loop consumes them in order.  `some (.ok r)` models returning
`res.data` on status `"succeeded"`, `some (.error _)` models throwing on
status `"failed"`, and `none` means the finite trace was exhausted with the
loop still running — the source has no other exit.
-/
def pollResult : List PollResponse → Option (Except OcrError PollResponse)
  | [] => none
  | r :: rest =>
    if r.status = "succeeded" then some (Except.ok r)
    else if r.status = "failed" then some (Except.error OcrError.analysisFailed)
    else pollResult rest

/-- The observable behaviours of one OCR interaction for one page:
the POST throws (network error), the POST resolves without an
`operation-location` header (which includes non-success statuses, since
`validateStatus: null` suppresses status errors), or polling proceeds
against a trace of reply bodies. -/
inductive OcrOutcome where
  | postError : OcrOutcome
  | noOpLocation : OcrOutcome
  | polled (responses : List PollResponse) : OcrOutcome

/--
`performOCROnFile` (doc-split.js:19-49).  `some s` models the function
returning the string `s`; `none` models the call never returning because
`pollResult` never reaches a terminal status.  Every throw inside the `try`
(missing header, network error, analysis failure) is caught and turned into
the empty string, and a succeeded result without `analyzeResult.content`
also yields the empty string.
-/
def performOCROnFile (outcome : OcrOutcome) : Option String :=
  match outcome with
  | .postError => some ""
  | .noOpLocation => some ""
  | .polled rs =>
    match pollResult rs with
    | none => none
    | some (Except.error _) => some ""
    | some (Except.ok r) =>
      match r.content with
      | some c => some c
      | none => some ""

/-- The OCR interactions that constitute a collaborator failure: network
error on submission, missing operation-location header (covering
non-success statuses), a `failed` analysis, or a succeeded reply without
extractable content (malformed response). -/
def OcrOutcome.isFailure : OcrOutcome → Bool
  | .postError => true
  | .noOpLocation => true
  | .polled rs =>
    match pollResult rs with
    | some (Except.error _) => true
    | some (Except.ok r) => r.content.isNone
    | none => false

/-! ## Grouping orchestrator: `analyzeDocumentPages` (doc-split.js:69-137) -/

/-- One entry of the `pageTexts` array built by the main pipeline loop:
1-based page number and extracted text.  The per-page file path is part of
the filesystem model instead. -/
structure PageText where
  pageNumber : Nat
  text : String
deriving DecidableEq, Repr

/-- The observable behaviours of one classification interaction: the chat
completion request throws, the reply text contains no brace-delimited span
(the regex match fails), the matched span fails `JSON.parse`, or it parses
to a JSON value. -/
inductive ClassifierOutcome where
  | netError : ClassifierOutcome
  | replyNoJson : ClassifierOutcome
  | replyBadJson : ClassifierOutcome
  | replyParsed (j : Json) : ClassifierOutcome

/-- The outcomes on which `analyzeDocumentPages` reaches its catch block and
substitutes the fallback response. -/
def ClassifierOutcome.triggersFallback : ClassifierOutcome → Bool
  | .netError => true
  | .replyNoJson => true
  | .replyBadJson => true
  | .replyParsed _ => false

/-- The single fallback group built in the catch block of
`analyzeDocumentPages` (doc-split.js:128-134). -/
def fallbackGroup (pageTexts : List PageText) : Json :=
  Json.obj
    [("name", Json.str "All Pages"),
     ("description", Json.str "All pages grouped together due to analysis error"),
     ("pages", Json.arr (pageTexts.map (fun p => Json.num (p.pageNumber : Int))))]

/-- The fallback grouping response of `analyzeDocumentPages`
(doc-split.js:126-135). -/
def fallbackResponse (pageTexts : List PageText) : Json :=
  Json.obj [("groups", Json.arr [fallbackGroup pageTexts])]

/--
`analyzeDocumentPages` (doc-split.js:69-137).  On a parsed reply the JSON
value is returned unchanged — the source performs no validation or repair of
the claimed page coverage.  On any caught failure (network error, no JSON
span, parse error) the fallback single-group response is returned.
-/
def analyzeDocumentPages (pageTexts : List PageText) (outcome : ClassifierOutcome) : Json :=
  match outcome with
  | .replyParsed j => j
  | _ => fallbackResponse pageTexts

/-! ## Reassembler: `createGroupedPDFs` (doc-split.js:140-186) -/

/-- `group.name.replace(/[^a-z0-9]/gi, "_").toLowerCase()`
(doc-split.js:164-166). -/
def sanitizeName (s : String) : String :=
  String.mk (s.data.map (fun c => if c.isAlphanum then c.toLower else '_'))

/--
The page-copy loop of `createGroupedPDFs` (doc-split.js:153-161): for each
element of `group.pages` in listed order, `pageIndex = pageNum - 1`, and the
page is copied only when `0 <= pageIndex < pageCount`.  The result is the
list of 0-based source page indices of the output document, in copy order.
A NaN coercion fails both comparisons and is skipped.
-/
def copiedIndices (elems : List Json) (pageCount : Nat) : List Nat :=
  elems.filterMap (fun e =>
    match jsToNumber e with
    | some v =>
      if 0 ≤ v - 1 ∧ v - 1 < (pageCount : Int) then some (v - 1).toNat else none
    | none => none)

/-- One element of the `groupedFiles` array (doc-split.js:173-179), extended
with `docPages`, the pages actually copied into the output document, which
the source keeps only on disk. -/
structure GroupedFile where
  name : String
  description : String
  pagesJson : Json
  docPages : List Nat
  fileName : String

/--
The per-group body of `createGroupedPDFs` (doc-split.js:149-182), which is
wrapped in a try/catch: any throw inside it (iterating a missing or
non-iterable `pages` field, calling `.replace` on a missing or non-string
`name`) is caught and the group is skipped, modelled as `none`.  The
`description || ""` default keeps a string description and degrades
everything else to the empty string.  `token` stands for the `Date.now()`
suffix of the output file name.
-/
def processGroup (group : Json) (pageCount : Nat) (token : String) : Option GroupedFile :=
  match getField group "pages" with
  | none => none
  | some pj =>
    match jsIterate pj with
    | none => none
    | some elems =>
      match getField group "name" with
      | some (Json.str nm) =>
        some
          { name := nm
            description :=
              match getField group "description" with
              | some (Json.str d) => d
              | _ => ""
            pagesJson := pj
            docPages := copiedIndices elems pageCount
            fileName := sanitizeName nm ++ "_" ++ token ++ ".pdf" }
      | _ => none

/-! ## The ephemeral workspace filesystem -/

/--
The paths the pipeline touches, all under the `temp` base directory:
the base itself, a non-directory stray entry directly under it (present so
the `isDirectory()` filters of the source are modelled), a per-run
workspace directory named by its timestamp id, its `pages` and `groups`
subdirectories, the per-page files and the per-group output files.
-/
inductive FPath where
  | tempRoot : FPath
  | tempStray (name : String) : FPath
  | wsDir (ws : String) : FPath
  | pagesDir (ws : String) : FPath
  | groupsDir (ws : String) : FPath
  | pageFile (ws : String) (n : Nat) : FPath
  | groupFile (ws : String) (fileName : String) : FPath
deriving DecidableEq, Repr

/-- The filesystem is the list of currently existing paths, in creation
order (directory listings enumerate in this order). -/
abbrev Fs := List FPath

/-- Whether a path lies inside the workspace directory `temp/<ws>`. -/
def underWs (ws : String) (p : FPath) : Bool :=
  match p with
  | .wsDir w => w == ws
  | .pagesDir w => w == ws
  | .groupsDir w => w == ws
  | .pageFile w _ => w == ws
  | .groupFile w _ => w == ws
  | .tempRoot => false
  | .tempStray _ => false

/-- `mkdirSync`/`writeFileSync`: the path exists afterwards; creating an
existing path changes nothing. -/
def addPath (p : FPath) (fs : Fs) : Fs :=
  if p ∈ fs then fs else fs ++ [p]

/-- `fs.rmSync(dirPath, recursive: true, force: true)` on `temp/<ws>`:
every path inside the workspace disappears; removal of an absent tree is a
no-op. -/
def rmWorkspace (ws : String) (fs : Fs) : Fs :=
  fs.filter (fun p => !underWs ws p)

/-- `fs.readdirSync(temp)` paired with the `statSync(...).isDirectory()`
flag of each entry: workspace directories and stray non-directory names. -/
def tempEntries (fs : Fs) : List (String × Bool) :=
  fs.filterMap (fun p =>
    match p with
    | .wsDir w => some (w, true)
    | .tempStray s => some (s, false)
    | _ => none)

/-- The directory-only listing of `temp`, as computed by the
`readdirSync(...).filter(dir => statSync(...).isDirectory())` pattern used
by `findGroupedFile` and `cleanupOldFiles`. -/
def listTempDirs (fs : Fs) : List String :=
  (tempEntries fs).filterMap (fun e => if e.2 then some e.1 else none)

/-! ## Pipeline (doc-split.js:189-266) -/

/-- The exceptions that can escape to the catch block of
`processDocumentSplit`: `PDFDocument.load` failing on the source document,
`copyPages` failing during segmentation, and the TypeError raised by
iterating a missing or non-iterable `groups` value in
`createGroupedPDFs`. -/
inductive PipelineError where
  | loadError : PipelineError
  | copyError (pageIndex : Nat) : PipelineError
  | typeError : PipelineError
deriving DecidableEq, Repr

/--
`createGroupedPDFs` (doc-split.js:140-186).  Iterating
`groupingResponse.groups` throws a TypeError when the value is missing or
not iterable — this happens at the loop header, before any group is
processed, so the filesystem is unchanged.  Otherwise each iterated element
is processed under its own try/catch: failed groups are skipped and
successful ones append their output file and record.
-/
def createGroupedPDFs (groupingResponse : Json) (pageCount : Nat) (ws token : String)
    (fs : Fs) : Except PipelineError (List GroupedFile × Fs) :=
  match getField groupingResponse "groups" with
  | none => Except.error PipelineError.typeError
  | some gj =>
    match jsIterate gj with
    | none => Except.error PipelineError.typeError
    | some gs =>
      Except.ok (gs.foldl
        (fun acc g =>
          match processGroup g pageCount token with
          | none => acc
          | some gf => (acc.1 ++ [gf], addPath (FPath.groupFile ws gf.fileName) acc.2))
        (([], fs) : List GroupedFile × Fs))

/-- One entry of the `groups` array of the result manifest
(doc-split.js:252-256): the raw `group.pages` value is passed through. -/
structure ManifestGroup where
  name : String
  pages : Json
  fileName : String

/-- The success manifest of `processDocumentSplit` (doc-split.js:249-258). -/
structure Manifest where
  success : Bool
  totalPages : Nat
  groups : List ManifestGroup
  message : String

/-- The collaborator-visible behaviour of one pipeline run: the workspace
id (`Date.now().toString()`), the `Date.now()` token used in group file
names, whether `PDFDocument.load` succeeds and with how many pages, whether
`copyPages` fails at some page index during segmentation, the OCR outcome
of each page, and the classifier outcome. -/
structure Env where
  wsId : String
  token : String
  loadResult : Option Nat
  copyFailAt : Option Nat
  ocr : Nat → OcrOutcome
  classifier : ClassifierOutcome

/--
The segmentation loop of `processDocumentSplit` (doc-split.js:210-229),
iterating the remaining 0-based page indices: copy the page (which can
throw), write the single-page file, run OCR on it (whose result is awaited
and can hang forever, modelled by `none`), and push the page record.
-/
def segLoop (env : Env) : List Nat → List PageText → Fs →
    Option (Except PipelineError (List PageText) × Fs)
  | [], acc, fs => some (Except.ok acc, fs)
  | i :: rest, acc, fs =>
    if env.copyFailAt = some i then some (Except.error (PipelineError.copyError i), fs)
    else
      let fs' := addPath (FPath.pageFile env.wsId (i + 1)) fs
      match performOCROnFile (env.ocr i) with
      | none => none
      | some txt => segLoop env rest (acc ++ [⟨i + 1, txt⟩]) fs'

/--
`processDocumentSplit` (doc-split.js:189-266).  Creates the workspace
directories, segments the document while extracting text, classifies, and
reassembles; on success the individual page files are removed and the
manifest returned.  Any uncaught exception reaches the catch block, which
removes the whole workspace tree (when present) and rethrows.  `none`
models a run that never returns because an OCR poll loops forever.
-/
def processDocumentSplit (env : Env) (fs0 : Fs) :
    Option (Except PipelineError Manifest × Fs) :=
  let ws := env.wsId
  let fs1 := addPath (FPath.groupsDir ws) (addPath (FPath.pagesDir ws)
    (addPath (FPath.wsDir ws) (addPath FPath.tempRoot fs0)))
  match env.loadResult with
  | none => some (Except.error PipelineError.loadError, rmWorkspace ws fs1)
  | some n =>
    match segLoop env (List.range n) [] fs1 with
    | none => none
    | some (Except.error e, fs2) => some (Except.error e, rmWorkspace ws fs2)
    | some (Except.ok pageTexts, fs2) =>
      let groupingResponse := analyzeDocumentPages pageTexts env.classifier
      match createGroupedPDFs groupingResponse n ws env.token fs2 with
      | Except.error e => some (Except.error e, rmWorkspace ws fs2)
      | Except.ok (groupedFiles, fs3) =>
        let fs4 := fs3.filter (fun p =>
          match p with
          | FPath.pageFile w _ => !(w == ws)
          | _ => true)
        some (Except.ok
          { success := true
            totalPages := n
            groups := groupedFiles.map (fun g =>
              { name := g.name, pages := g.pagesJson, fileName := g.fileName })
            message := "Document successfully split and grouped" }, fs4)

/-! ## Artifact locator: `findGroupedFile` (doc-split.js:269-288) -/

/--
`findGroupedFile` (doc-split.js:269-288): enumerate the directories under
`temp`, and for the first one whose `groups` subdirectory exists and
contains an exact match of the requested file name, return that path;
`none` models the `return null` not-found result.
-/
def findGroupedFile (fs : Fs) (filename : String) : Option FPath :=
  (listTempDirs fs).findSome? (fun ws =>
    if FPath.groupsDir ws ∈ fs then
      if FPath.groupFile ws filename ∈ fs then some (FPath.groupFile ws filename)
      else none
    else none)

/-! ## Sweep: `cleanupOldFiles` (doc-split.js:291-323) -/

/-- JavaScript `parseInt(s)` (base 10): skip leading whitespace, take an
optional sign and the longest leading digit run; NaN (`none`) when no digit
is found. -/
def parseIntJs (s : String) : Option Int :=
  let cs := s.data.dropWhile (fun c => c.isWhitespace)
  let signed : Bool × List Char :=
    match cs with
    | '-' :: rest => (true, rest)
    | '+' :: rest => (false, rest)
    | _ => (false, cs)
  let digits := signed.2.takeWhile (fun c => c.isDigit)
  if digits.isEmpty then none
  else
    let v : Int := digits.foldl (fun a c => a * 10 + ((c.toNat - 48 : Nat) : Int)) 0
    some (if signed.1 then -v else v)

/-- The removal condition of the sweep (doc-split.js:306-308):
`parseInt(dirName) < Date.now() - 60*60*1000`.  A NaN comparison is false,
so a name without a leading digit is kept. -/
def expired (now : Int) (w : String) : Bool :=
  match parseIntJs w with
  | some t => decide (t < now - 60 * 60 * 1000)
  | none => false

/-- The value of one `cleanupOldFiles` call: the filesystem afterwards, the
`cleanedCount` counter, and the returned message object. -/
structure CleanupResult where
  fs : Fs
  cleanedCount : Nat
  message : String

/--
`cleanupOldFiles` (doc-split.js:291-323): when the `temp` base exists,
enumerate its subdirectories, remove each whose name parses to a timestamp
older than one hour, and report how many were removed; otherwise report
that no temp directory exists.
-/
def cleanupOldFiles (fs : Fs) (now : Int) : CleanupResult :=
  if FPath.tempRoot ∈ fs then
    let removed := (listTempDirs fs).filter (expired now)
    { fs := fs.filter (fun p => !(removed.any (fun w => underWs w p)))
      cleanedCount := removed.length
      message := "Cleaned up " ++ toString removed.length ++ " old temporary directories" }
  else
    { fs := fs, cleanedCount := 0, message := "No temp directory found" }

/-! ## Projection helpers for stating claims -/

/-- The caller-visible summary of a completed successful run: the
`totalPages` field and, per manifest group, its name and raw `pages`
value. -/
def runSummary (r : Option (Except PipelineError Manifest × Fs)) :
    Option (Nat × List (String × Json)) :=
  match r with
  | some (Except.ok m, _) => some (m.totalPages, m.groups.map (fun g => (g.name, g.pages)))
  | _ => none

/-- The filesystem left by a completed run (the empty filesystem for a run
that never returns). -/
def runFs (r : Option (Except PipelineError Manifest × Fs)) : Fs :=
  match r with
  | some (_, fs) => fs
  | none => []

/-! ## Concrete collaborator behaviours used in the claim theorems -/

/-- A well-behaved OCR interaction: one poll, succeeded, with content. -/
def ocrOk : OcrOutcome := OcrOutcome.polled [⟨"succeeded", some "sample text"⟩]

/-- A classifier reply assigning one group that covers only page 1 of a
2-page document (pages missing from the claimed coverage). -/
def envC1 : Env :=
  { wsId := "w", token := "t", loadResult := some 2, copyFailAt := none,
    ocr := fun _ => ocrOk,
    classifier := ClassifierOutcome.replyParsed (Json.obj [("groups", Json.arr
      [Json.obj [("name", Json.str "A"), ("description", Json.str ""),
                 ("pages", Json.arr [Json.num 1])]])]) }

/-- A classifier reply that parses to an object with an empty groups
array, over a 2-page document. -/
def envC2cx : Env :=
  { wsId := "w", token := "t", loadResult := some 2, copyFailAt := none,
    ocr := fun _ => ocrOk,
    classifier := ClassifierOutcome.replyParsed (Json.obj [("groups", Json.arr [])]) }

/-- A classification network failure over a 2-page document. -/
def envC2w : Env :=
  { wsId := "w", token := "t", loadResult := some 2, copyFailAt := none,
    ocr := fun _ => ocrOk, classifier := ClassifierOutcome.netError }

/-- A classifier reply referencing out-of-range page 99 of a 10-page
document. -/
def envC5 : Env :=
  { wsId := "w", token := "t", loadResult := some 10, copyFailAt := none,
    ocr := fun _ => ocrOk,
    classifier := ClassifierOutcome.replyParsed (Json.obj [("groups", Json.arr
      [Json.obj [("name", Json.str "A"), ("description", Json.str ""),
                 ("pages", Json.arr [Json.num 1, Json.num 99])]])]) }

/-- The group of `envC5`, handed to the reassembler in isolation. -/
def gC5 : Json :=
  Json.obj [("name", Json.str "A"), ("description", Json.str ""),
            ("pages", Json.arr [Json.num 1, Json.num 99])]

/-- A GroupSpec listing pages 3, 1, 2 of a 3-page document in that order. -/
def g312 : Json :=
  Json.obj [("name", Json.str "G"), ("description", Json.str ""),
            ("pages", Json.arr [Json.num 3, Json.num 1, Json.num 2])]

/-- A 2-page run whose first page suffers an OCR network failure while the
second extracts normally; classification then fails over to the default
group. -/
def envC6 : Env :=
  { wsId := "w", token := "t", loadResult := some 2, copyFailAt := none,
    ocr := fun i => if i = 0 then OcrOutcome.postError else ocrOk,
    classifier := ClassifierOutcome.netError }

/-- A run whose source document cannot be parsed. -/
def envC7w : Env :=
  { wsId := "w", token := "t", loadResult := none, copyFailAt := none,
    ocr := fun _ => ocrOk, classifier := ClassifierOutcome.netError }

/-- A classifier reply whose groups value is the string "ab": iterable, so
the pipeline iterates its characters instead of failing. -/
def envC10cx : Env :=
  { wsId := "w", token := "t", loadResult := some 2, copyFailAt := none,
    ocr := fun _ => ocrOk,
    classifier := ClassifierOutcome.replyParsed (Json.obj [("groups", Json.str "ab")]) }

/-- A classifier reply whose groups value is the number 5: not iterable,
so the reassembly loop header throws. -/
def envC10w : Env :=
  { wsId := "w", token := "t", loadResult := some 2, copyFailAt := none,
    ocr := fun _ => ocrOk,
    classifier := ClassifierOutcome.replyParsed (Json.obj [("groups", Json.num 5)]) }

/-- A temp tree with a workspace from two hours before `nowC8`, one from
five minutes before, and one whose name is not a timestamp. -/
def fsC8 : Fs :=
  [FPath.tempRoot, FPath.wsDir "9992800000", FPath.wsDir "9999700000", FPath.wsDir "junk"]

/-- The sweep instant paired with `fsC8`. -/
def nowC8 : Int := 10000000000

/-- A temp tree holding two complete workspaces, the later of which owns
the artifact x.pdf. -/
def fsC9 : Fs :=
  [FPath.tempRoot, FPath.wsDir "a", FPath.groupsDir "a",
   FPath.wsDir "b", FPath.groupsDir "b", FPath.groupFile "b" "x.pdf"]

/-! ## Shared lemmas -/

/-- Removing a workspace tree removes every path inside it. -/
theorem not_mem_rmWorkspace {ws : String} {p : FPath} (fs : Fs)
    (h : underWs ws p = true) : p ∉ rmWorkspace ws fs := by
  simp [rmWorkspace, List.mem_filter, h]

/-- Every error result of the pipeline carries a filesystem on which the
workspace tree has been removed: the catch block runs before rethrowing. -/
theorem processDocumentSplit_error {env : Env} {fs0 : Fs} {e : PipelineError} {fs' : Fs}
    (h : processDocumentSplit env fs0 = some (Except.error e, fs')) :
    ∃ fsx, fs' = rmWorkspace env.wsId fsx := by
  unfold processDocumentSplit at h
  dsimp only at h
  split at h
  · simp only [Option.some.injEq, Prod.mk.injEq] at h
    exact ⟨_, h.2.symm⟩
  · split at h
    · exact absurd h (by simp)
    · simp only [Option.some.injEq, Prod.mk.injEq] at h
      exact ⟨_, h.2.symm⟩
    · split at h
      · simp only [Option.some.injEq, Prod.mk.injEq] at h
        exact ⟨_, h.2.symm⟩
      · simp only [Option.some.injEq, Prod.mk.injEq] at h
        exact absurd h.1 (by simp)

/-- When no copy fails and every OCR interaction of the listed pages
terminates, the segmentation loop succeeds and produces one page record per
index, numbered `i + 1` in order. -/
theorem segLoop_ok (env : Env) (hcopy : env.copyFailAt = none) :
    ∀ (l : List Nat) (acc : List PageText) (fs : Fs),
      (∀ j ∈ l, (performOCROnFile (env.ocr j)).isSome = true) →
      ∃ pts fs2, segLoop env l acc fs = some (Except.ok (acc ++ pts), fs2) ∧
        pts.map PageText.pageNumber = l.map (fun i => i + 1) := by
  intro l
  induction l with
  | nil =>
    intro acc fs _
    exact ⟨[], fs, by simp [segLoop], by simp⟩
  | cons i rest ih =>
    intro acc fs hocr
    have hne : ¬ env.copyFailAt = some i := by rw [hcopy]; simp
    obtain ⟨txt, htxt⟩ := Option.isSome_iff_exists.mp (hocr i (by simp))
    obtain ⟨pts, fs2, hseg, hmap⟩ :=
      ih (acc ++ [⟨i + 1, txt⟩]) (addPath (FPath.pageFile env.wsId (i + 1)) fs)
        (fun j hj => hocr j (by simp [hj]))
    refine ⟨⟨i + 1, txt⟩ :: pts, fs2, ?_, ?_⟩
    · rw [segLoop, if_neg hne]
      simp only [htxt]
      rw [hseg]
      simp
    · simp [hmap]

/-- Reassembling the fallback response yields exactly one grouped file,
named All Pages, whose manifest pages value lists the page numbers of the
extracted pages in order. -/
theorem createGroupedPDFs_fallback (pts : List PageText) (n : Nat) (ws token : String)
    (fs : Fs) :
    ∃ gf fs', createGroupedPDFs (fallbackResponse pts) n ws token fs = Except.ok ([gf], fs') ∧
      gf.name = "All Pages" ∧
      gf.pagesJson = Json.arr (pts.map (fun p => Json.num (p.pageNumber : Int))) :=
  ⟨_, _, rfl, rfl, rfl⟩

/-- On every outcome that reaches the catch block, the orchestrator answers
with the fallback response. -/
theorem analyzeDocumentPages_fallback (pts : List PageText) {c : ClassifierOutcome}
    (hc : c.triggersFallback = true) :
    analyzeDocumentPages pts c = fallbackResponse pts := by
  cases c <;> simp [ClassifierOutcome.triggersFallback] at hc ⊢ <;> rfl

/-! ## Claim theorems -/

/--
C1: the Grouping Orchestrator has no repair step.  A parsed classifier
reply is returned unchanged for every input (first conjunct), and on the
failing input — a 2-page document whose classifier reply covers only page
1 — the successful manifest contains a single group with pages [1]: page 2
appears in no group, no Unclassified group is appended, and the coverage
invariant over 1..N fails.
-/
theorem c1_no_coverage_repair :
    (∀ (pts : List PageText) (j : Json),
      analyzeDocumentPages pts (ClassifierOutcome.replyParsed j) = j) ∧
    runSummary (processDocumentSplit envC1 []) =
      some (2, [("A", Json.arr [Json.num 1])]) :=
  ⟨fun _ _ => rfl, rfl⟩

/--
C2 counterexample: an empty groups array is a classification failure per
the claim, yet the pipeline substitutes no default group: the parsed reply
passes through and the manifest of this 2-page run has zero groups instead
of exactly one group with pages 1..2.
-/
theorem c2_empty_groups_counterexample :
    runSummary (processDocumentSplit envC2cx []) = some (2, []) := rfl

/--
C2 amended: on a classification failure that reaches the catch block
(network error, reply without a JSON span, or a span that fails parsing)
the orchestrator substitutes the single fallback group named All Pages with
pages 1..N ascending, the run proceeds, and the manifest contains exactly
that group; an empty groups array in a parsed reply does not trigger the
fallback (see the counterexample).
-/
theorem c2_fallback_amended (env : Env) (fs0 : Fs) (n : Nat)
    (hload : env.loadResult = some n) (hcopy : env.copyFailAt = none)
    (hocr : ∀ j, j < n → (performOCROnFile (env.ocr j)).isSome = true)
    (hcls : env.classifier.triggersFallback = true) :
    runSummary (processDocumentSplit env fs0) =
      some (n, [("All Pages",
        Json.arr ((List.range n).map (fun i => Json.num ((i + 1 : Nat) : Int))))]) := by
  obtain ⟨pts, fs2, hseg, hmap⟩ :=
    segLoop_ok env hcopy (List.range n) []
      (addPath (FPath.groupsDir env.wsId) (addPath (FPath.pagesDir env.wsId)
        (addPath (FPath.wsDir env.wsId) (addPath FPath.tempRoot fs0))))
      (fun j hj => hocr j (List.mem_range.mp hj))
  obtain ⟨gf, fs', hcreate, hname, hpages⟩ :=
    createGroupedPDFs_fallback pts n env.wsId env.token fs2
  rw [List.nil_append] at hseg
  simp only [processDocumentSplit, hload, hseg, analyzeDocumentPages_fallback pts hcls,
    hcreate, runSummary, List.map_cons, List.map_nil, Option.some.injEq, Prod.mk.injEq,
    List.cons.injEq, and_true, true_and]
  refine ⟨hname, ?_⟩
  rw [hpages, show (fun p : PageText => Json.num (p.pageNumber : Int)) =
    (fun k : Nat => Json.num (k : Int)) ∘ PageText.pageNumber from rfl]
  rw [← List.map_map, hmap, List.map_map]
  rfl

/-- C2 witness: a concrete 2-page run with a classifier network failure
produces exactly the one All Pages group covering pages 1 and 2. -/
theorem c2_fallback_amended_witness :
    runSummary (processDocumentSplit envC2w []) =
      some (2, [("All Pages", Json.arr [Json.num 1, Json.num 2])]) :=
  c2_fallback_amended envC2w [] 2 rfl rfl (fun _ _ => rfl) rfl

/--
C3: the wait on the OCR collaborator is unbounded.  For a job that never
reports a terminal status, the polling loop of `pollResult` neither returns
nor throws after any number of polls — there is no ceiling and no timeout
error in the code (`OcrError` has the single constructor `analysisFailed`)
— and consequently `performOCROnFile` for that page never terminates,
contradicting the claimed 30-60 second ceiling with a distinct
ExtractionTimeoutError.
-/
theorem c3_unbounded_poll (s : String) (c : Option String)
    (h1 : ¬ s = "succeeded") (h2 : ¬ s = "failed") (n : Nat) :
    pollResult (List.replicate n ⟨s, c⟩) = none ∧
    performOCROnFile (OcrOutcome.polled (List.replicate n ⟨s, c⟩)) = none := by
  have hp : ∀ m : Nat, pollResult (List.replicate m ⟨s, c⟩) = none := by
    intro m
    induction m with
    | zero => rfl
    | succ k ih => simp [List.replicate_succ, pollResult, h1, h2, ih]
  exact ⟨hp n, by simp [performOCROnFile, hp n]⟩

/-- C3 witness: one hundred consecutive running polls leave the loop
still spinning, with no timeout surfaced. -/
theorem c3_unbounded_poll_witness :
    pollResult (List.replicate 100 ⟨"running", none⟩) = none ∧
    performOCROnFile (OcrOutcome.polled (List.replicate 100 ⟨"running", none⟩)) = none :=
  c3_unbounded_poll "running" none (by decide) (by decide) 100

/--
C4: the reassembler copies, in the listed order of the GroupSpec pages
array, exactly its in-range entries, each at 0-based index pageNumber - 1
(first conjunct, for every integer page list and page count); out-of-range
entries are skipped rather than failing the copy.  In particular the
GroupSpec [3,1,2] over a 3-page source yields the output pages at source
indices [2,0,1] — original pages 3,1,2 in that order, not sorted.
-/
theorem c4_reassembly_order :
    (∀ (ps : List Int) (N : Nat),
      copiedIndices (ps.map Json.num) N =
        (ps.filter (fun p => decide (1 ≤ p ∧ p ≤ (N : Int)))).map
          (fun p => (p - 1).toNat)) ∧
    (processGroup g312 3 "t").map (fun gf => gf.docPages) = some [2, 0, 1] := by
  refine ⟨?_, rfl⟩
  intro ps N
  induction ps with
  | nil => rfl
  | cons p rest ih =>
    by_cases h : 0 ≤ p - 1 ∧ p - 1 < (N : Int)
    · have h' : 1 ≤ p ∧ p ≤ (N : Int) := by omega
      simp only [copiedIndices, List.map_cons, List.filterMap_cons, jsToNumber, if_pos h,
        List.filter_cons, decide_eq_true h']
      exact congrArg _ ih
    · have h' : ¬(1 ≤ p ∧ p ≤ (N : Int)) := by omega
      simp only [copiedIndices, List.map_cons, List.filterMap_cons, jsToNumber, if_neg h,
        List.filter_cons, decide_eq_false h']
      exact ih

/--
C5 counterexample: the out-of-range page 99 of a 10-page document is not
dropped from the returned manifest: the run succeeds and its single group
still lists pages [1, 99], because no repair step exists and
`createGroupedPDFs` passes the raw pages value through to the manifest.
-/
theorem c5_manifest_keeps_out_of_range :
    runSummary (processDocumentSplit envC5 []) =
      some (10, [("A", Json.arr [Json.num 1, Json.num 99])]) := rfl

/--
C5 amended: an out-of-range page number is skipped during reassembly —
every page index copied into an output document is a valid 0-based index of
the source (first conjunct) — and its presence does not crash the run: the
group [1, 99] over 10 pages materializes a document holding only source
index 0, and the pipeline run completes successfully.  The number is
dropped only from the output document, not from the manifest listing (see
the counterexample).
-/
theorem c5_out_of_range_skipped :
    (∀ (elems : List Json) (N : Nat), ∀ i ∈ copiedIndices elems N, i < N) ∧
    (processGroup gC5 10 "t").map (fun gf => gf.docPages) = some [0] ∧
    (runSummary (processDocumentSplit envC5 [])).isSome = true := by
  refine ⟨?_, rfl, rfl⟩
  intro elems N i hi
  simp only [copiedIndices, List.mem_filterMap] at hi
  obtain ⟨e, _, hf⟩ := hi
  cases hj : jsToNumber e with
  | none =>
    simp only [hj] at hf
    exact absurd hf (by simp)
  | some v =>
    simp only [hj] at hf
    by_cases hc : 0 ≤ v - 1 ∧ v - 1 < (N : Int)
    · rw [if_pos hc] at hf
      obtain ⟨h1, h2⟩ := hc
      cases Option.some.inj hf
      omega
    · rw [if_neg hc] at hf
      exact absurd hf (by simp)

/-- C5 witness: instantiating the in-range property at the group [3] over
10 pages, whose copied index 2 is below the page count. -/
theorem c5_out_of_range_skipped_witness : (2 : Nat) < 10 :=
  c5_out_of_range_skipped.1 [Json.num 3] 10 2 (by decide)

/--
C6: on every OCR collaborator failure — network error on submission,
missing operation-location header (which covers non-success statuses),
failed analysis, or a succeeded reply without extractable content —
`performOCROnFile` returns the empty string instead of propagating the
failure; and in the concrete 2-page run `envC6` the page whose OCR fails
still enters `pageTexts` as an empty-text page, the run completing
normally with both pages grouped.
-/
theorem c6_extract_failure_empty (o : OcrOutcome) (h : o.isFailure = true) :
    performOCROnFile o = some "" ∧
    segLoop envC6 (List.range 2) [] [] =
      some (Except.ok [⟨1, ""⟩, ⟨2, "sample text"⟩],
        [FPath.pageFile "w" 1, FPath.pageFile "w" 2]) ∧
    runSummary (processDocumentSplit envC6 []) =
      some (2, [("All Pages", Json.arr [Json.num 1, Json.num 2])]) := by
  refine ⟨?_, rfl, rfl⟩
  cases o with
  | postError => rfl
  | noOpLocation => rfl
  | polled rs =>
    simp only [OcrOutcome.isFailure] at h
    simp only [performOCROnFile]
    cases hpoll : pollResult rs with
    | none =>
      simp only [hpoll] at h
      exact absurd h (by simp)
    | some r =>
      cases r with
      | error e => simp only [hpoll]
      | ok pr =>
        simp only [hpoll] at h ⊢
        cases hc : pr.content with
        | none => simp [hc]
        | some c =>
          simp only [hc, Option.isNone] at h
          exact absurd h (by simp)

/-- C6 witness: a network failure on the OCR submission yields the empty
string. -/
theorem c6_extract_failure_empty_witness : performOCROnFile OcrOutcome.postError = some "" :=
  (c6_extract_failure_empty OcrOutcome.postError rfl).1

/--
C7: whenever the pipeline surfaces a fatal error, the filesystem it leaves
behind contains no path of the run workspace: the catch block removes the
whole tree before rethrowing, so no partial workspace or partial output
survives a fatal failure.
-/
theorem c7_fatal_error_removes_workspace (env : Env) (fs0 : Fs) (e : PipelineError)
    (fs' : Fs) (h : processDocumentSplit env fs0 = some (Except.error e, fs')) :
    ∀ p, underWs env.wsId p = true → p ∉ fs' := by
  obtain ⟨fsx, hfsx⟩ := processDocumentSplit_error h
  exact fun p hp => hfsx ▸ not_mem_rmWorkspace fsx hp

/-- C7 witness: a run whose source document fails to parse ends with the
workspace directories gone. -/
theorem c7_fatal_error_removes_workspace_witness :
    FPath.pagesDir "w" ∉ runFs (processDocumentSplit envC7w []) := by
  have h : processDocumentSplit envC7w [] =
      some (Except.error PipelineError.loadError, [FPath.tempRoot]) := rfl
  have hn := c7_fatal_error_removes_workspace envC7w [] PipelineError.loadError
    [FPath.tempRoot] h (FPath.pagesDir "w") rfl
  rw [h]
  simp only [runFs]
  exact hn

/--
C8: with the temp base present, the sweep removes every path of every
listed workspace whose name parses to a timestamp strictly more than one
hour before now, keeps every listed workspace that is not expired —
including every name that does not parse as a timestamp, which is skipped
without aborting (the sweep is a total function) — and its returned
message reports the count of removed workspaces.
-/
theorem c8_sweep_expired (fs : Fs) (now : Int) (hroot : FPath.tempRoot ∈ fs) :
    (∀ w t, FPath.wsDir w ∈ fs → parseIntJs w = some t → t < now - 60 * 60 * 1000 →
      ∀ p, underWs w p = true → p ∉ (cleanupOldFiles fs now).fs) ∧
    (∀ w, FPath.wsDir w ∈ fs → expired now w = false →
      FPath.wsDir w ∈ (cleanupOldFiles fs now).fs) ∧
    (cleanupOldFiles fs now).cleanedCount =
      ((listTempDirs fs).filter (expired now)).length ∧
    (cleanupOldFiles fs now).message =
      "Cleaned up " ++ toString (cleanupOldFiles fs now).cleanedCount ++
        " old temporary directories" := by
  have hres : cleanupOldFiles fs now =
      { fs := fs.filter (fun p =>
          !(((listTempDirs fs).filter (expired now)).any (fun w => underWs w p)))
        cleanedCount := ((listTempDirs fs).filter (expired now)).length
        message := "Cleaned up " ++
          toString ((listTempDirs fs).filter (expired now)).length ++
          " old temporary directories" } := by
    unfold cleanupOldFiles
    rw [if_pos hroot]
  refine ⟨?_, ?_, ?_, ?_⟩
  · intro w t hws hparse hlt p hp hmem
    rw [hres] at hmem
    have hlist : w ∈ listTempDirs fs := by
      refine List.mem_filterMap.mpr ⟨(w, true), ?_, rfl⟩
      exact List.mem_filterMap.mpr ⟨FPath.wsDir w, hws, rfl⟩
    have hexp : expired now w = true := by
      unfold expired
      rw [hparse]
      simpa using hlt
    have hrem : w ∈ (listTempDirs fs).filter (expired now) :=
      List.mem_filter.mpr ⟨hlist, hexp⟩
    have hany : ((listTempDirs fs).filter (expired now)).any (fun w => underWs w p) = true :=
      List.any_eq_true.mpr ⟨w, hrem, hp⟩
    have := (List.mem_filter.mp hmem).2
    rw [hany] at this
    exact absurd this (by simp)
  · intro w hws hnexp
    rw [hres]
    refine List.mem_filter.mpr ⟨hws, ?_⟩
    have hany : ((listTempDirs fs).filter (expired now)).any
        (fun ws => underWs ws (FPath.wsDir w)) = false := by
      rw [List.any_eq_false]
      intro ws hwsrem
      simp only [underWs, beq_eq_false_iff_ne, ne_eq]
      intro hEq
      have hwe : w = ws := by simpa using hEq
      subst hwe
      exact absurd ((List.mem_filter.mp hwsrem).2) (by simp [hnexp])
    rw [hany]
    rfl
  · rw [hres]
  · rw [hres]

/-- C8 witness: sweeping a temp tree at instant 10000000000 removes the
workspace stamped two hours earlier, keeps the one stamped five minutes
earlier and the non-numeric name junk, and reports one removal. -/
theorem c8_sweep_expired_witness :
    FPath.wsDir "9992800000" ∉ (cleanupOldFiles fsC8 nowC8).fs ∧
    FPath.wsDir "9999700000" ∈ (cleanupOldFiles fsC8 nowC8).fs ∧
    FPath.wsDir "junk" ∈ (cleanupOldFiles fsC8 nowC8).fs ∧
    (cleanupOldFiles fsC8 nowC8).message = "Cleaned up 1 old temporary directories" := by
  have h := c8_sweep_expired fsC8 nowC8 (by decide)
  refine ⟨?_, ?_, ?_, ?_⟩
  · exact h.1 "9992800000" 9992800000 (by decide) (by decide) (by decide)
      (FPath.wsDir "9992800000") rfl
  · exact h.2.1 "9999700000" (by decide) (by decide)
  · exact h.2.1 "junk" (by decide) (by decide)
  · rw [h.2.2.2]
    decide

/--
C9: the artifact locator returns not-found (the non-exceptional `none`)
exactly when no listed workspace has a groups directory holding an exact
match of the requested filename; and every found result is the artifact
path of the first listed workspace that has one, no earlier listed
workspace matching.
-/
theorem c9_artifact_locator (fs : Fs) (filename : String) :
    (findGroupedFile fs filename = none ↔
      ∀ ws ∈ listTempDirs fs, FPath.groupsDir ws ∈ fs →
        FPath.groupFile ws filename ∉ fs) ∧
    (∀ p, findGroupedFile fs filename = some p →
      ∃ l₁ ws l₂, listTempDirs fs = l₁ ++ ws :: l₂ ∧
        p = FPath.groupFile ws filename ∧
        FPath.groupsDir ws ∈ fs ∧ FPath.groupFile ws filename ∈ fs ∧
        ∀ wsPrior ∈ l₁,
          ¬(FPath.groupsDir wsPrior ∈ fs ∧ FPath.groupFile wsPrior filename ∈ fs)) := by
  constructor
  · simp only [findGroupedFile, List.findSome?_eq_none_iff]
    constructor
    · intro h ws hws hg hf
      have := h ws hws
      rw [if_pos hg, if_pos hf] at this
      exact absurd this (by simp)
    · intro h ws hws
      by_cases hg : FPath.groupsDir ws ∈ fs
      · rw [if_pos hg, if_neg (h ws hws hg)]
      · rw [if_neg hg]
  · intro p hp
    simp only [findGroupedFile] at hp
    obtain ⟨l₁, ws, l₂, hl, hf, hprior⟩ := List.findSome?_eq_some_iff.mp hp
    by_cases hg : FPath.groupsDir ws ∈ fs
    · by_cases hfl : FPath.groupFile ws filename ∈ fs
      · rw [if_pos hg, if_pos hfl] at hf
        refine ⟨l₁, ws, l₂, hl, (Option.some.inj hf).symm, hg, hfl, ?_⟩
        intro wsPrior hwsPrior ⟨hg', hf'⟩
        have := hprior wsPrior hwsPrior
        rw [if_pos hg', if_pos hf'] at this
        exact absurd this (by simp)
      · rw [if_pos hg, if_neg hfl] at hf
        exact absurd hf (by simp)
    · rw [if_neg hg] at hf
      exact absurd hf (by simp)

/-- C9 witness: a filename never produced is reported not-found on a temp
tree holding two complete workspaces. -/
theorem c9_artifact_locator_witness : findGroupedFile fsC9 "nope.pdf" = none :=
  (c9_artifact_locator fsC9 "nope.pdf").1.mpr (by decide)

/--
C10 counterexample: a parsed reply whose groups field is the string "ab" is
not an array, yet the run does not fail: strings are iterable, each
character fails the per-group try/catch and is skipped, and the run
succeeds with an empty manifest while the workspace survives — no fatal
error, no workspace deletion.
-/
theorem c10_string_groups_counterexample :
    runSummary (processDocumentSplit envC10cx []) = some (2, []) ∧
    FPath.groupsDir "w" ∈ runFs (processDocumentSplit envC10cx []) := by
  exact ⟨rfl, by decide⟩

/--
C10 amended: when the parsed reply has a groups value that is absent or
not iterable (null, a boolean, a number, or a plain object), iterating it
throws in the main pipeline: the run fails with the TypeError, the
workspace tree is removed, and the caller receives a failure with no
output groups.  A string groups value, being iterable, instead yields a
successful run with an empty manifest (see the counterexample).
-/
theorem c10_noniterable_groups_fatal (env : Env) (fs0 : Fs) (n : Nat) (j : Json)
    (hload : env.loadResult = some n) (hcopy : env.copyFailAt = none)
    (hocr : ∀ i, i < n → (performOCROnFile (env.ocr i)).isSome = true)
    (hcls : env.classifier = ClassifierOutcome.replyParsed j)
    (hbad : (getField j "groups").bind jsIterate = none) :
    ∃ fs', processDocumentSplit env fs0 = some (Except.error PipelineError.typeError, fs') ∧
      ∀ p, underWs env.wsId p = true → p ∉ fs' := by
  obtain ⟨pts, fs2, hseg, hmap⟩ :=
    segLoop_ok env hcopy (List.range n) []
      (addPath (FPath.groupsDir env.wsId) (addPath (FPath.pagesDir env.wsId)
        (addPath (FPath.wsDir env.wsId) (addPath FPath.tempRoot fs0))))
      (fun i hi => hocr i (List.mem_range.mp hi))
  rw [List.nil_append] at hseg
  have hcg : createGroupedPDFs j n env.wsId env.token fs2 =
      Except.error PipelineError.typeError := by
    unfold createGroupedPDFs
    cases hg : getField j "groups" with
    | none => rfl
    | some gj =>
      simp only [hg, Option.some_bind] at hbad
      simp only [hbad]
  refine ⟨rmWorkspace env.wsId fs2, ?_, fun p hp => not_mem_rmWorkspace fs2 hp⟩
  simp only [processDocumentSplit, hload, hseg, hcls, analyzeDocumentPages, hcg]

/-- C10 witness: a parsed reply whose groups value is the number 5 fails
the concrete 2-page run fatally and leaves no workspace directory
behind. -/
theorem c10_noniterable_groups_fatal_witness :
    FPath.groupsDir "w" ∉ runFs (processDocumentSplit envC10w []) := by
  obtain ⟨fs', heq, hnot⟩ := c10_noniterable_groups_fatal envC10w [] 2
    (Json.obj [("groups", Json.num 5)]) rfl rfl (fun _ _ => rfl) rfl rfl
  rw [heq]
  simp only [runFs]
  exact hnot (FPath.groupsDir "w") rfl

end DocSplit
